import Mathlib

/-!
Shallow embedding of the phylum-types wire data model
(src/types/package.rs and src/types/job.rs) and proofs about its
serde encode/decode contracts.

JSON is modelled as an inductive value type; floating-point wire numbers
(f32/f64) are modelled as rationals and chrono timestamps as their RFC3339
string form. serde's derive semantics are translated field by field:
`rename`/`rename_all`/`alias` become the literal key strings used by the
encoders and decoders, `skip_serializing_if = "Option::is_none"` omits the
key, a container-level `#[serde(default)]` falls back to the field's
Default value when its key is missing, `#[serde(skip)]` is never written
and always decodes to its default, and `#[serde(flatten)]` reads the inner
struct's fields from the same surrounding object.
-/

namespace PhylumTypes

/-- JSON values; numbers are modelled as rationals. -/
inductive Json where
  | null
  | bool (b : Bool)
  | num (q : Rat)
  | str (s : String)
  | arr (elems : List Json)
  | obj (fields : List (String × Json))

/-- The value stored under key `k` in a JSON object's field list. -/
def jsonField : List (String × Json) → String → Option Json
  | [], _ => none
  | (k', v) :: rest, k => if k' = k then some v else jsonField rest k

def decodeString : Json → Option String
  | .str s => some s
  | _ => none

def decodeBool : Json → Option Bool
  | .bool b => some b
  | _ => none

def decodeRat : Json → Option Rat
  | .num q => some q
  | _ => none

/-- Decode an unsigned integer (u32/u64): the number must be a non-negative
integer. -/
def decodeNat : Json → Option Nat
  | .num q => if q.den = 1 ∧ 0 ≤ q.num then some q.num.toNat else none
  | _ => none

/-- Decode a signed integer (i64): the number must be an integer. -/
def decodeInt : Json → Option Int
  | .num q => if q.den = 1 then some q.num else none
  | _ => none

/-- Monadic bind on Option, as a plain definition; the long field-by-field
decoders chain it directly. -/
def obind : Option α → (α → Option β) → Option β
  | none, _ => none
  | some a, f => f a

/-- Decode every element of a list, failing if any element fails. -/
def mapOption (f : α → Option β) : List α → Option (List β)
  | [] => some []
  | x :: xs => do
      let y ← f x
      let ys ← mapOption f xs
      some (y :: ys)

def decodeList (dec : Json → Option α) : Json → Option (List α)
  | .arr xs => mapOption dec xs
  | _ => none

/-- Decode a JSON object into an association list (the model of
HashMap<String, V>; ordering is the payload's key order). -/
def decodeStrMap (dec : Json → Option α) : Json → Option (List (String × α))
  | .obj fs => mapOption (fun kv => (dec kv.2).map (fun v => (kv.1, v))) fs
  | _ => none

/-- A required field: a missing key or a failed value decode fails the
whole struct, as serde does for a field with no default. -/
def reqField (fs : List (String × Json)) (k : String) (dec : Json → Option α) : Option α :=
  (jsonField fs k).bind dec

/-- A required field that additionally accepts a legacy `#[serde(alias)]`
key. -/
def reqFieldAka (fs : List (String × Json)) (k aka : String) (dec : Json → Option α) : Option α :=
  ((jsonField fs k).orElse (fun _ => jsonField fs aka)).bind dec

/-- An `Option` field: an absent key or an explicit null decodes to none
(serde's implicit Option default). -/
def optField (fs : List (String × Json)) (k : String) (dec : Json → Option α) : Option (Option α) :=
  match jsonField fs k with
  | none => some none
  | some .null => some none
  | some v => (dec v).map some

/-- A field governed by `#[serde(default)]`: a missing key falls back to
the given default value. -/
def defField (fs : List (String × Json)) (k : String) (dec : Json → Option α) (d : α) : Option α :=
  match jsonField fs k with
  | none => some d
  | some v => dec v

def encodeOpt (enc : α → Json) : Option α → Json
  | none => .null
  | some v => enc v

def encodeStrMap (enc : α → Json) (m : List (String × α)) : Json :=
  .obj (m.map (fun kv => (kv.1, enc kv.2)))

/-! ## PackageType (src/types/package.rs, lines 82-166) -/

/-- The package ecosystem (`enum PackageType`, serde rename_all =
"lowercase"). -/
inductive PackageType where
  | Npm
  | PyPi
  | Maven
  | RubyGems
  | Nuget
  | Cargo
  | Golang
deriving DecidableEq, Repr

/-- Rust's `str::to_lowercase`, modelled as per-character lowercasing
(the alias table is pure ASCII, where the two coincide). -/
def strLower (s : String) : String :=
  ⟨s.data.map Char.toLower⟩

/-- `impl FromStr for PackageType`: lower-case the input and match the
alias table; the error type is Rust's unit `()`. -/
def packageTypeFromStr (input : String) : Except Unit PackageType :=
  match strLower input with
  | "npm" => .ok .Npm
  | "python" | "pypi" => .ok .PyPi
  | "maven" | "maven-central" => .ok .Maven
  | "ruby" | "rubygems" | "gem" => .ok .RubyGems
  | "nuget" | "dotnet" => .ok .Nuget
  | "cargo" => .ok .Cargo
  | "golang" => .ok .Golang
  | _ => .error ()

/-- `impl Display for PackageType`: the Debug variant name, lowercased. -/
def displayPackageType : PackageType → String
  | .Npm => "npm"
  | .PyPi => "pypi"
  | .Maven => "maven"
  | .RubyGems => "rubygems"
  | .Nuget => "nuget"
  | .Cargo => "cargo"
  | .Golang => "golang"

/-- The external purl crate's package-type vocabulary. Only the variants
this model names are listed, plus Composer as a representative of the
unsupported ones (every unsupported variant takes the same wildcard arm of
the source's TryFrom). -/
inductive PurlPackageType where
  | Cargo
  | Gem
  | Golang
  | Maven
  | Npm
  | NuGet
  | PyPI
  | Composer
deriving DecidableEq, Repr

/-- The purl crate's unit error struct `purl::UnsupportedPackageType`. -/
inductive UnsupportedPackageType where
  | mk
deriving DecidableEq, Repr

/-- `impl From<PackageType> for purl::PackageType`. -/
def purlFromPackageType : PackageType → PurlPackageType
  | .Npm => .Npm
  | .PyPi => .PyPI
  | .Maven => .Maven
  | .RubyGems => .Gem
  | .Nuget => .NuGet
  | .Cargo => .Cargo
  | .Golang => .Golang

/-- `impl TryFrom<purl::PackageType> for PackageType`. -/
def packageTypeFromPurl : PurlPackageType → Except UnsupportedPackageType PackageType
  | .Cargo => .ok .Cargo
  | .Gem => .ok .RubyGems
  | .Golang => .ok .Golang
  | .Maven => .ok .Maven
  | .Npm => .ok .Npm
  | .NuGet => .ok .Nuget
  | .PyPI => .ok .PyPi
  | _ => .error .mk

/-! ## Risk taxonomy (src/types/package.rs, lines 14-80 and 269-308) -/

/-- Risk domains (`enum RiskDomain`, explicit serde renames, with alias
"malicious" on the Malicious variant). -/
inductive RiskDomain where
  | AuthorRisk
  | EngineeringRisk
  | Malicious
  | Vulnerabilities
  | LicenseRisk
deriving DecidableEq, Repr

/-- Issue severity (`enum RiskLevel`, serde rename_all = "camelCase"). -/
inductive RiskLevel where
  | Info
  | Low
  | Medium
  | High
  | Critical
deriving DecidableEq, Repr

/-- `RiskLevel::score`; the source's f32 table modelled as rationals. -/
def riskLevelScore : RiskLevel → Rat
  | .Info => 1
  | .Low => (8 : Rat) / 10
  | .Medium => (65 : Rat) / 100
  | .High => (35 : Rat) / 100
  | .Critical => (1 : Rat) / 10

/-- Output-side risk taxonomy (`enum RiskType`, serde rename_all =
"camelCase", MaliciousRisk renamed "maliciousCodeRisk" with alias
"maliciousRisk"). -/
inductive RiskType where
  | TotalRisk
  | Vulnerabilities
  | MaliciousRisk
  | AuthorsRisk
  | EngineeringRisk
  | LicenseRisk
deriving DecidableEq, Repr

/-- `impl From<RiskDomain> for RiskType`. -/
def riskTypeFromRiskDomain : RiskDomain → RiskType
  | .Malicious => .MaliciousRisk
  | .Vulnerabilities => .Vulnerabilities
  | .EngineeringRisk => .EngineeringRisk
  | .AuthorRisk => .AuthorsRisk
  | .LicenseRisk => .LicenseRisk

/-- `impl Display for RiskType`: the fixed 3-letter codes. -/
def displayRiskType : RiskType → String
  | .MaliciousRisk => "MAL"
  | .Vulnerabilities => "VLN"
  | .EngineeringRisk => "ENG"
  | .AuthorsRisk => "AUT"
  | .LicenseRisk => "LIC"
  | .TotalRisk => "ALL"

/-- `impl Display for RiskDomain`: convert to RiskType and display that. -/
def displayRiskDomain (d : RiskDomain) : String :=
  displayRiskType (riskTypeFromRiskDomain d)

/-- Wire name of a RiskDomain (its serde rename). -/
def encodeRiskDomain : RiskDomain → Json
  | .AuthorRisk => .str "author"
  | .EngineeringRisk => .str "engineering"
  | .Malicious => .str "malicious_code"
  | .Vulnerabilities => .str "vulnerability"
  | .LicenseRisk => .str "license"

/-- Decode a RiskDomain, honouring the legacy alias "malicious". -/
def decodeRiskDomain : Json → Option RiskDomain
  | .str "author" => some .AuthorRisk
  | .str "engineering" => some .EngineeringRisk
  | .str "malicious_code" => some .Malicious
  | .str "malicious" => some .Malicious
  | .str "vulnerability" => some .Vulnerabilities
  | .str "license" => some .LicenseRisk
  | _ => none

def encodeRiskLevel : RiskLevel → Json
  | .Info => .str "info"
  | .Low => .str "low"
  | .Medium => .str "medium"
  | .High => .str "high"
  | .Critical => .str "critical"

def decodeRiskLevel : Json → Option RiskLevel
  | .str "info" => some .Info
  | .str "low" => some .Low
  | .str "medium" => some .Medium
  | .str "high" => some .High
  | .str "critical" => some .Critical
  | _ => none

def encodeRiskType : RiskType → Json
  | .TotalRisk => .str "totalRisk"
  | .Vulnerabilities => .str "vulnerabilities"
  | .MaliciousRisk => .str "maliciousCodeRisk"
  | .AuthorsRisk => .str "authorsRisk"
  | .EngineeringRisk => .str "engineeringRisk"
  | .LicenseRisk => .str "licenseRisk"

/-- Decode a RiskType, honouring the legacy alias "maliciousRisk". -/
def decodeRiskType : Json → Option RiskType
  | .str "totalRisk" => some .TotalRisk
  | .str "vulnerabilities" => some .Vulnerabilities
  | .str "maliciousCodeRisk" => some .MaliciousRisk
  | .str "maliciousRisk" => some .MaliciousRisk
  | .str "authorsRisk" => some .AuthorsRisk
  | .str "engineeringRisk" => some .EngineeringRisk
  | .str "licenseRisk" => some .LicenseRisk
  | _ => none

/-- Wire name of a PackageType (serde rename_all = "lowercase"). -/
def encodePackageType (t : PackageType) : Json :=
  .str (displayPackageType t)

def decodePackageType : Json → Option PackageType
  | .str "npm" => some .Npm
  | .str "pypi" => some .PyPi
  | .str "maven" => some .Maven
  | .str "rubygems" => some .RubyGems
  | .str "nuget" => some .Nuget
  | .str "cargo" => some .Cargo
  | .str "golang" => some .Golang
  | _ => none

/-! ## Package coordinates (src/types/package.rs, lines 174-212, 413-423) -/

/-- `struct PackageSpecifier` (registry has alias "type"). -/
structure PackageSpecifier where
  registry : String
  name : String
  version : String
deriving DecidableEq, Repr

/-- `struct PackageDescriptor` (package_type renamed "type", alias
"registry"). -/
structure PackageDescriptor where
  name : String
  version : String
  package_type : PackageType
deriving DecidableEq, Repr

/-- `impl From<&PackageDescriptor> for PackageSpecifier`. -/
def specifierFromDescriptor (d : PackageDescriptor) : PackageSpecifier :=
  { registry := displayPackageType d.package_type
    name := d.name
    version := d.version }

/-- `impl TryFrom<PackageSpecifier> for PackageDescriptor`; the error is
the source's formatted String. -/
def descriptorFromSpecifier (s : PackageSpecifier) : Except String PackageDescriptor :=
  match packageTypeFromStr s.registry with
  | .error () => .error ("Failed to convert registry " ++ s.registry ++ " to package type")
  | .ok t => .ok { name := s.name, version := s.version, package_type := t }

/-- Wire form of a PackageSpecifier. -/
def encodePackageSpecifier (s : PackageSpecifier) : Json :=
  .obj [("registry", .str s.registry), ("name", .str s.name), ("version", .str s.version)]

/-- Decode a PackageSpecifier; registry accepts the legacy alias "type". -/
def decodePackageSpecifier : Json → Option PackageSpecifier
  | .obj fs => do
      let registry ← reqFieldAka fs "registry" "type" decodeString
      let name ← reqField fs "name" decodeString
      let version ← reqField fs "version" decodeString
      some { registry := registry, name := name, version := version }
  | _ => none

/-- The wire fields of a PackageDescriptor (package_type is renamed
"type"), shared with the flattened encoding inside
PackageDescriptorAndLockfile. -/
def encodePackageDescriptorFields (d : PackageDescriptor) : List (String × Json) :=
  [("name", .str d.name), ("version", .str d.version), ("type", encodePackageType d.package_type)]

/-- Wire form of a PackageDescriptor. -/
def encodePackageDescriptor (d : PackageDescriptor) : Json :=
  .obj (encodePackageDescriptorFields d)

/-- Decode a PackageDescriptor from an object's field list; "type" accepts
the legacy alias "registry". -/
def decodePackageDescriptorFields (fs : List (String × Json)) : Option PackageDescriptor := do
  let name ← reqField fs "name" decodeString
  let version ← reqField fs "version" decodeString
  let package_type ← reqFieldAka fs "type" "registry" decodePackageType
  some { name := name, version := version, package_type := package_type }

def decodePackageDescriptor : Json → Option PackageDescriptor
  | .obj fs => decodePackageDescriptorFields fs
  | _ => none

/-- `struct PackageDescriptorAndLockfile`: a flattened PackageDescriptor
plus a lockfile path that is omitted from the encoding when absent. -/
structure PackageDescriptorAndLockfile where
  package_descriptor : PackageDescriptor
  lockfile : Option String
deriving DecidableEq, Repr

def encodePackageDescriptorAndLockfile (p : PackageDescriptorAndLockfile) : Json :=
  .obj (encodePackageDescriptorFields p.package_descriptor ++
    (match p.lockfile with | none => [] | some s => [("lockfile", Json.str s)]))

def decodePackageDescriptorAndLockfile : Json → Option PackageDescriptorAndLockfile
  | .obj fs =>
      obind (decodePackageDescriptorFields fs) fun package_descriptor =>
      obind (optField fs "lockfile" decodeString) fun lockfile =>
      some { package_descriptor := package_descriptor, lockfile := lockfile }
  | _ => none

/-- `struct PackageSpecifierAndLockfile`: a nested (not flattened)
PackageSpecifier plus a lockfile path with no omission attribute. -/
structure PackageSpecifierAndLockfile where
  package_specifier : PackageSpecifier
  lockfile : Option String
deriving DecidableEq, Repr

def encodePackageSpecifierAndLockfile (p : PackageSpecifierAndLockfile) : Json :=
  .obj [("package_specifier", encodePackageSpecifier p.package_specifier),
        ("lockfile", encodeOpt Json.str p.lockfile)]

def decodePackageSpecifierAndLockfile : Json → Option PackageSpecifierAndLockfile
  | .obj fs =>
      obind (reqField fs "package_specifier" decodePackageSpecifier) fun package_specifier =>
      obind (optField fs "lockfile" decodeString) fun lockfile =>
      some { package_specifier := package_specifier, lockfile := lockfile }
  | _ => none

/-- `struct PackageUrlAndLockfile`. -/
structure PackageUrlAndLockfile where
  purl : String
  lockfile : Option String
deriving DecidableEq, Repr

def encodePackageUrlAndLockfile (p : PackageUrlAndLockfile) : Json :=
  .obj [("purl", .str p.purl), ("lockfile", encodeOpt Json.str p.lockfile)]

def decodePackageUrlAndLockfile : Json → Option PackageUrlAndLockfile
  | .obj fs =>
      obind (reqField fs "purl" decodeString) fun purl =>
      obind (optField fs "lockfile" decodeString) fun lockfile =>
      some { purl := purl, lockfile := lockfile }
  | _ => none

/-- `struct HeuristicResult` (old package responses). -/
structure HeuristicResult where
  domain : RiskDomain
  score : Rat
  risk_level : RiskLevel
deriving DecidableEq, Repr

def encodeHeuristicResult (h : HeuristicResult) : Json :=
  .obj [("domain", encodeRiskDomain h.domain), ("score", .num h.score),
        ("risk_level", encodeRiskLevel h.risk_level)]

def decodeHeuristicResult : Json → Option HeuristicResult
  | .obj fs =>
      obind (reqField fs "domain" decodeRiskDomain) fun domain =>
      obind (reqField fs "score" decodeRat) fun score =>
      obind (reqField fs "risk_level" decodeRiskLevel) fun risk_level =>
      some { domain := domain, score := score, risk_level := risk_level }
  | _ => none

/-- `struct Vulnerability` (old package responses; base_severity is
renamed "severity" on the wire). -/
structure Vulnerability where
  cve : List String
  base_severity : Rat
  risk_level : RiskLevel
  title : String
  description : String
  remediation : String
deriving DecidableEq, Repr

def encodeVulnerability (v : Vulnerability) : Json :=
  .obj [("cve", .arr (v.cve.map Json.str)), ("severity", .num v.base_severity),
        ("risk_level", encodeRiskLevel v.risk_level), ("title", .str v.title),
        ("description", .str v.description), ("remediation", .str v.remediation)]

def decodeVulnerability : Json → Option Vulnerability
  | .obj fs =>
      obind (reqField fs "cve" (decodeList decodeString)) fun cve =>
      obind (reqField fs "severity" decodeRat) fun base_severity =>
      obind (reqField fs "risk_level" decodeRiskLevel) fun risk_level =>
      obind (reqField fs "title" decodeString) fun title =>
      obind (reqField fs "description" decodeString) fun description =>
      obind (reqField fs "remediation" decodeString) fun remediation =>
      some { cve := cve, base_severity := base_severity, risk_level := risk_level,
             title := title, description := description, remediation := remediation }
  | _ => none

/-! ## Risk scores and the package report model
(src/types/package.rs, lines 168-172, 214-341, 343-380) -/

/-- `struct RiskScores` (f32 fields as rationals; malicious is renamed
"malicious_code" with alias "malicious"). -/
structure RiskScores where
  total : Rat
  vulnerability : Rat
  malicious : Rat
  author : Rat
  engineering : Rat
  license : Rat
deriving DecidableEq, Repr

/-- Rust's derived `Default` for RiskScores: every score zero. -/
def riskScoresDefault : RiskScores :=
  { total := 0, vulnerability := 0, malicious := 0, author := 0, engineering := 0, license := 0 }

def encodeRiskScores (r : RiskScores) : Json :=
  .obj [("total", .num r.total), ("vulnerability", .num r.vulnerability),
        ("malicious_code", .num r.malicious), ("author", .num r.author),
        ("engineering", .num r.engineering), ("license", .num r.license)]

def decodeRiskScores : Json → Option RiskScores
  | .obj fs => do
      let total ← reqField fs "total" decodeRat
      let vulnerability ← reqField fs "vulnerability" decodeRat
      let malicious ← reqFieldAka fs "malicious_code" "malicious" decodeRat
      let author ← reqField fs "author" decodeRat
      let engineering ← reqField fs "engineering" decodeRat
      let license ← reqField fs "license" decodeRat
      some { total := total, vulnerability := vulnerability, malicious := malicious,
             author := author, engineering := engineering, license := license }
  | _ => none

/-- `struct ScoredVersion`. -/
structure ScoredVersion where
  version : String
  total_risk_score : Option Rat
deriving DecidableEq, Repr

def encodeScoredVersion (v : ScoredVersion) : Json :=
  .obj [("version", .str v.version), ("total_risk_score", encodeOpt Json.num v.total_risk_score)]

def decodeScoredVersion : Json → Option ScoredVersion
  | .obj fs => do
      let version ← reqField fs "version" decodeString
      let total_risk_score ← optField fs "total_risk_score" decodeRat
      some { version := version, total_risk_score := total_risk_score }
  | _ => none

/-- `struct ScoreDynamicsPoint` (camelCase keys; the chrono timestamp is
modelled as its RFC3339 string form). -/
structure ScoreDynamicsPoint where
  date_time : String
  score : Rat
  label : String
deriving DecidableEq, Repr

def encodeScoreDynamicsPoint (p : ScoreDynamicsPoint) : Json :=
  .obj [("dateTime", .str p.date_time), ("score", .num p.score), ("label", .str p.label)]

def decodeScoreDynamicsPoint : Json → Option ScoreDynamicsPoint
  | .obj fs => do
      let date_time ← reqField fs "dateTime" decodeString
      let score ← reqField fs "score" decodeRat
      let label ← reqField fs "label" decodeString
      some { date_time := date_time, score := score, label := label }
  | _ => none

/-- `struct Issue`; rule is `#[serde(skip)]`: never written to the wire and
always decoded as its default (None). -/
structure Issue where
  tag : Option String
  id : Option String
  title : String
  description : String
  severity : RiskLevel
  domain : RiskDomain
  rule : Option String
deriving DecidableEq, Repr

/-- The wire fields of an Issue, shared between its own encoder and the
flattened encoding inside IssueStatus; rule is skipped. -/
def encodeIssueFields (i : Issue) : List (String × Json) :=
  [("tag", encodeOpt Json.str i.tag), ("id", encodeOpt Json.str i.id),
   ("title", .str i.title), ("description", .str i.description),
   ("severity", encodeRiskLevel i.severity), ("domain", encodeRiskDomain i.domain)]

def encodeIssue (i : Issue) : Json :=
  .obj (encodeIssueFields i)

/-- Decode an Issue from an object's field list (severity and domain
accept the legacy aliases "risk_level" and "risk_domain"; rule is skipped,
so it always comes back as None). -/
def decodeIssueFields (fs : List (String × Json)) : Option Issue := do
  let tag ← optField fs "tag" decodeString
  let id ← optField fs "id" decodeString
  let title ← reqField fs "title" decodeString
  let description ← reqField fs "description" decodeString
  let severity ← reqFieldAka fs "severity" "risk_level" decodeRiskLevel
  let domain ← reqFieldAka fs "domain" "risk_domain" decodeRiskDomain
  some { tag := tag, id := id, title := title, description := description,
         severity := severity, domain := domain, rule := none }

def decodeIssue : Json → Option Issue
  | .obj fs => decodeIssueFields fs
  | _ => none

/-- `struct IssuesListItem` (camelCase keys). -/
structure IssuesListItem where
  risk_type : RiskType
  score : Rat
  impact : RiskLevel
  description : String
  title : String
  tag : Option String
  id : Option String
  ignored : Option String
deriving DecidableEq, Repr

def encodeIssuesListItem (i : IssuesListItem) : Json :=
  .obj [("riskType", encodeRiskType i.risk_type), ("score", .num i.score),
        ("impact", encodeRiskLevel i.impact), ("description", .str i.description),
        ("title", .str i.title), ("tag", encodeOpt Json.str i.tag),
        ("id", encodeOpt Json.str i.id), ("ignored", encodeOpt Json.str i.ignored)]

def decodeIssuesListItem : Json → Option IssuesListItem
  | .obj fs => do
      let risk_type ← reqField fs "riskType" decodeRiskType
      let score ← reqField fs "score" decodeRat
      let impact ← reqField fs "impact" decodeRiskLevel
      let description ← reqField fs "description" decodeString
      let title ← reqField fs "title" decodeString
      let tag ← optField fs "tag" decodeString
      let id ← optField fs "id" decodeString
      let ignored ← optField fs "ignored" decodeString
      some { risk_type := risk_type, score := score, impact := impact,
             description := description, title := title, tag := tag, id := id,
             ignored := ignored }
  | _ => none

/-- `struct Author` (camelCase keys). -/
structure Author where
  name : String
  avatar_url : String
  email : String
  profile_url : String
deriving DecidableEq, Repr

def encodeAuthor (a : Author) : Json :=
  .obj [("name", .str a.name), ("avatarUrl", .str a.avatar_url),
        ("email", .str a.email), ("profileUrl", .str a.profile_url)]

def decodeAuthor : Json → Option Author
  | .obj fs => do
      let name ← reqField fs "name" decodeString
      let avatar_url ← reqField fs "avatarUrl" decodeString
      let email ← reqField fs "email" decodeString
      let profile_url ← reqField fs "profileUrl" decodeString
      some { name := name, avatar_url := avatar_url, email := email, profile_url := profile_url }
  | _ => none

/-- `struct DeveloperResponsiveness` (snake_case keys, all fields
optional). -/
structure DeveloperResponsiveness where
  open_issue_count : Option Nat
  total_issue_count : Option Nat
  open_issue_avg_duration : Option Nat
  open_pull_request_count : Option Nat
  total_pull_request_count : Option Nat
  open_pull_request_avg_duration : Option Nat
deriving DecidableEq, Repr

def encodeDeveloperResponsiveness (d : DeveloperResponsiveness) : Json :=
  .obj [("open_issue_count", encodeOpt (fun n => Json.num n) d.open_issue_count),
        ("total_issue_count", encodeOpt (fun n => Json.num n) d.total_issue_count),
        ("open_issue_avg_duration", encodeOpt (fun n => Json.num n) d.open_issue_avg_duration),
        ("open_pull_request_count", encodeOpt (fun n => Json.num n) d.open_pull_request_count),
        ("total_pull_request_count", encodeOpt (fun n => Json.num n) d.total_pull_request_count),
        ("open_pull_request_avg_duration", encodeOpt (fun n => Json.num n) d.open_pull_request_avg_duration)]

def decodeDeveloperResponsiveness : Json → Option DeveloperResponsiveness
  | .obj fs => do
      let open_issue_count ← optField fs "open_issue_count" decodeNat
      let total_issue_count ← optField fs "total_issue_count" decodeNat
      let open_issue_avg_duration ← optField fs "open_issue_avg_duration" decodeNat
      let open_pull_request_count ← optField fs "open_pull_request_count" decodeNat
      let total_pull_request_count ← optField fs "total_pull_request_count" decodeNat
      let open_pull_request_avg_duration ← optField fs "open_pull_request_avg_duration" decodeNat
      some { open_issue_count := open_issue_count, total_issue_count := total_issue_count,
             open_issue_avg_duration := open_issue_avg_duration,
             open_pull_request_count := open_pull_request_count,
             total_pull_request_count := total_pull_request_count,
             open_pull_request_avg_duration := open_pull_request_avg_duration }
  | _ => none

/-- `struct PackageReleaseData` (camelCase keys, container-level
serde(default)). -/
structure PackageReleaseData where
  first_release_date : String
  last_release_date : String
deriving DecidableEq, Repr

def encodePackageReleaseData (d : PackageReleaseData) : Json :=
  .obj [("firstReleaseDate", .str d.first_release_date), ("lastReleaseDate", .str d.last_release_date)]

def decodePackageReleaseData : Json → Option PackageReleaseData
  | .obj fs => do
      let first_release_date ← defField fs "firstReleaseDate" decodeString ""
      let last_release_date ← defField fs "lastReleaseDate" decodeString ""
      some { first_release_date := first_release_date, last_release_date := last_release_date }
  | _ => none

/-- `struct Package` (camelCase keys, container-level serde(default), purl
omitted when absent). The recursive `dependencies: Option<Vec<Package>>`
forces an inductive rather than a structure; the constructor lists the
fields in source order. -/
inductive Package where
  | mk
    (purl : Option String)
    (id : String)
    (name : String)
    (version : String)
    (registry : String)
    (published_date : Option String)
    (latest_version : Option String)
    (versions : List ScoredVersion)
    (description : Option String)
    (license : Option String)
    (dep_specs : List PackageSpecifier)
    (dependencies : Option (List Package))
    (download_count : Nat)
    (risk_scores : RiskScores)
    (total_risk_score_dynamics : Option (List ScoreDynamicsPoint))
    (issues_details : List Issue)
    (issues : List IssuesListItem)
    (authors : List Author)
    (developer_responsiveness : Option DeveloperResponsiveness)
    (complete : Bool)
    (release_data : Option PackageReleaseData)
    (repo_url : Option String)
    (maintainers_recently_changed : Option Bool)
    (is_abandonware : Option Bool)
    : Package

/-- Rust's derived `Default` for Package: empty strings and lists, absent
options, zero counts, zero scores, complete = false. -/
def packageDefault : Package :=
  .mk none "" "" "" "" none none [] none none [] none 0 riskScoresDefault none [] [] [] none false none none none none

mutual

/-- Wire form of a Package: camelCase keys in declaration order; purl is
omitted entirely when absent (skip_serializing_if), every other Option
field encodes as null when absent. -/
def encodePackage : Package → Json
  | .mk purl id name version registry published_date latest_version versions description
      license dep_specs dependencies download_count risk_scores total_risk_score_dynamics
      issues_details issues authors developer_responsiveness complete release_data repo_url
      maintainers_recently_changed is_abandonware =>
    .obj ((match purl with | none => [] | some s => [("purl", Json.str s)]) ++
      [("id", .str id), ("name", .str name), ("version", .str version),
       ("registry", .str registry),
       ("publishedDate", encodeOpt Json.str published_date),
       ("latestVersion", encodeOpt Json.str latest_version),
       ("versions", .arr (versions.map encodeScoredVersion)),
       ("description", encodeOpt Json.str description),
       ("license", encodeOpt Json.str license),
       ("depSpecs", .arr (dep_specs.map encodePackageSpecifier)),
       ("dependencies", match dependencies with
         | none => Json.null
         | some l => .arr (encodePackageList l)),
       ("downloadCount", .num download_count),
       ("riskScores", encodeRiskScores risk_scores),
       ("totalRiskScoreDynamics",
         encodeOpt (fun l => Json.arr (l.map encodeScoreDynamicsPoint)) total_risk_score_dynamics),
       ("issuesDetails", .arr (issues_details.map encodeIssue)),
       ("issues", .arr (issues.map encodeIssuesListItem)),
       ("authors", .arr (authors.map encodeAuthor)),
       ("developerResponsiveness", encodeOpt encodeDeveloperResponsiveness developer_responsiveness),
       ("complete", .bool complete),
       ("releaseData", encodeOpt encodePackageReleaseData release_data),
       ("repoUrl", encodeOpt Json.str repo_url),
       ("maintainersRecentlyChanged", encodeOpt Json.bool maintainers_recently_changed),
       ("isAbandonware", encodeOpt Json.bool is_abandonware)])

def encodePackageList : List Package → List Json
  | [] => []
  | p :: ps => encodePackage p :: encodePackageList ps

end

mutual

/-- Nesting height of a package's dependency tree; an upper bound on the
decode fuel needed for its encoding. -/
def packageHeight : Package → Nat
  | .mk _ _ _ _ _ _ _ _ _ _ _ none _ _ _ _ _ _ _ _ _ _ _ _ => 1
  | .mk _ _ _ _ _ _ _ _ _ _ _ (some l) _ _ _ _ _ _ _ _ _ _ _ _ => packageListHeight l + 1

def packageListHeight : List Package → Nat
  | [] => 0
  | p :: ps => max (packageHeight p) (packageListHeight ps)

end

mutual

/-- True when no Issue anywhere in the package's tree carries the
serde-skipped internal rule identifier. -/
def packageRuleFree : Package → Bool
  | .mk _ _ _ _ _ _ _ _ _ _ _ dependencies _ _ _ issues_details _ _ _ _ _ _ _ _ =>
    issues_details.all (fun i => i.rule = none) &&
      (match dependencies with
        | none => true
        | some l => packageListRuleFree l)

def packageListRuleFree : List Package → Bool
  | [] => true
  | p :: ps => packageRuleFree p && packageListRuleFree ps

end

/-- Decode the fields of a Package: every field falls back to its default
when its key is missing (container-level serde(default)); the decoder for
dependency sub-packages is passed in. -/
def decodePackageFields (depDec : Json → Option Package) (fs : List (String × Json)) : Option Package :=
  obind (optField fs "purl" decodeString) fun purl =>
  obind (defField fs "id" decodeString "") fun id =>
  obind (defField fs "name" decodeString "") fun name =>
  obind (defField fs "version" decodeString "") fun version =>
  obind (defField fs "registry" decodeString "") fun registry =>
  obind (optField fs "publishedDate" decodeString) fun published_date =>
  obind (optField fs "latestVersion" decodeString) fun latest_version =>
  obind (defField fs "versions" (decodeList decodeScoredVersion) []) fun versions =>
  obind (optField fs "description" decodeString) fun description =>
  obind (optField fs "license" decodeString) fun license =>
  obind (defField fs "depSpecs" (decodeList decodePackageSpecifier) []) fun dep_specs =>
  obind (optField fs "dependencies" (decodeList depDec)) fun dependencies =>
  obind (defField fs "downloadCount" decodeNat 0) fun download_count =>
  obind (defField fs "riskScores" decodeRiskScores riskScoresDefault) fun risk_scores =>
  obind (optField fs "totalRiskScoreDynamics" (decodeList decodeScoreDynamicsPoint)) fun total_risk_score_dynamics =>
  obind (defField fs "issuesDetails" (decodeList decodeIssue) []) fun issues_details =>
  obind (defField fs "issues" (decodeList decodeIssuesListItem) []) fun issues =>
  obind (defField fs "authors" (decodeList decodeAuthor) []) fun authors =>
  obind (optField fs "developerResponsiveness" decodeDeveloperResponsiveness) fun developer_responsiveness =>
  obind (defField fs "complete" decodeBool false) fun complete =>
  obind (optField fs "releaseData" decodePackageReleaseData) fun release_data =>
  obind (optField fs "repoUrl" decodeString) fun repo_url =>
  obind (optField fs "maintainersRecentlyChanged" decodeBool) fun maintainers_recently_changed =>
  obind (optField fs "isAbandonware" decodeBool) fun is_abandonware =>
  some (Package.mk purl id name version registry published_date latest_version versions description
    license dep_specs dependencies download_count risk_scores total_risk_score_dynamics
    issues_details issues authors developer_responsiveness complete release_data repo_url
    maintainers_recently_changed is_abandonware)

/-- Fueled decoder for Package; the fuel bounds the dependency recursion
depth. -/
def decodePackageFuel : Nat → Json → Option Package
  | 0, _ => none
  | fuel + 1, .obj fs => decodePackageFields (decodePackageFuel fuel) fs
  | _ + 1, _ => none

mutual

/-- Number of Json nodes, used to pick a sufficient decode fuel. -/
def jsonWeight : Json → Nat
  | .null => 1
  | .bool _ => 1
  | .num _ => 1
  | .str _ => 1
  | .arr xs => jsonWeightList xs + 1
  | .obj fs => jsonWeightFields fs + 1

def jsonWeightList : List Json → Nat
  | [] => 0
  | j :: js => jsonWeight j + jsonWeightList js

def jsonWeightFields : List (String × Json) → Nat
  | [] => 0
  | (_, v) :: fs => jsonWeight v + jsonWeightFields fs

end

/-- Decode a Package from a Json value (fuel chosen from the value's own
size, which bounds any dependency nesting it can contain). -/
def decodePackage (j : Json) : Option Package :=
  decodePackageFuel (jsonWeight j) j

/-- `enum PackageSubmitResponse` (serde tag = "status", content = "data"):
adjacently tagged, so the newtype variant writes both keys while serde
writes unit variants as the tag alone, with no content key at all. -/
inductive PackageSubmitResponse where
  | AlreadyProcessed (pkg : Package)
  | AlreadySubmitted
  | New

/-- Wire form of a PackageSubmitResponse: "status" holds the variant name;
"data" is present only for AlreadyProcessed. -/
def encodePackageSubmitResponse : PackageSubmitResponse → Json
  | .AlreadyProcessed pkg =>
      .obj [("status", .str "AlreadyProcessed"), ("data", encodePackage pkg)]
  | .AlreadySubmitted => .obj [("status", .str "AlreadySubmitted")]
  | .New => .obj [("status", .str "New")]

/-- Decode a PackageSubmitResponse: dispatch on the "status" tag; only
AlreadyProcessed reads a "data" payload, decoded by the given Package
decoder. -/
def decodePackageSubmitResponse (decPkg : Json → Option Package) :
    Json → Option PackageSubmitResponse
  | .obj fs =>
      match jsonField fs "status" with
      | some (.str "AlreadyProcessed") =>
          obind (reqField fs "data" decPkg) fun pkg => some (.AlreadyProcessed pkg)
      | some (.str "AlreadySubmitted") => some .AlreadySubmitted
      | some (.str "New") => some .New
      | _ => none
  | _ => none

/-- Decode fuel needed by a PackageSubmitResponse's payload. -/
def submitResponseHeight : PackageSubmitResponse → Nat
  | .AlreadyProcessed p => packageHeight p
  | .AlreadySubmitted => 0
  | .New => 0

/-- Whether a PackageSubmitResponse's payload is free of serde-skipped
rule identifiers. -/
def submitResponseRuleFree : PackageSubmitResponse → Bool
  | .AlreadyProcessed p => packageRuleFree p
  | .AlreadySubmitted => true
  | .New => true

/-! ## Job/status model (src/types/job.rs; per-package status shapes in
src/types/package.rs, lines 484-543) -/

/-- Modelled from the spec: `Status` lives in src/types/common.rs, which is
not under src/; the spec treats it as an opaque external enum with at least
Complete/Incomplete-like states. Its wire form is taken to be the lowercase
variant name. -/
inductive Status where
  | Incomplete
  | Complete
deriving DecidableEq, Repr

def encodeStatus : Status → Json
  | .Incomplete => .str "incomplete"
  | .Complete => .str "complete"

def decodeStatus : Json → Option Status
  | .str "incomplete" => some .Incomplete
  | .str "complete" => some .Complete
  | _ => none

/-- Modelled from the spec: JobId / UserId / ProjectId live in
src/types/common.rs, which is not under src/; the spec gives them no
structure beyond being identifiers, so they are modelled as strings. -/
def JobId : Type := String

def decodeJobId (j : Json) : Option JobId := decodeString j

/-- `struct JobDescriptor`: flat job metadata for list views; ecosystems
and num_incomplete carry `#[serde(default)]`. -/
structure JobDescriptor where
  job_id : String
  project : String
  label : String
  num_dependencies : Nat
  packages : List PackageDescriptorAndLockfile
  pass : Bool
  msg : String
  date : String
  ecosystems : List String
  num_incomplete : Nat
deriving DecidableEq, Repr

def encodeJobDescriptor (j : JobDescriptor) : Json :=
  .obj [("job_id", .str j.job_id), ("project", .str j.project), ("label", .str j.label),
        ("num_dependencies", .num j.num_dependencies),
        ("packages", .arr (j.packages.map encodePackageDescriptorAndLockfile)),
        ("pass", .bool j.pass), ("msg", .str j.msg), ("date", .str j.date),
        ("ecosystems", .arr (j.ecosystems.map Json.str)),
        ("num_incomplete", .num j.num_incomplete)]

def decodeJobDescriptor : Json → Option JobDescriptor
  | .obj fs =>
      obind (reqField fs "job_id" decodeString) fun job_id =>
      obind (reqField fs "project" decodeString) fun project =>
      obind (reqField fs "label" decodeString) fun label =>
      obind (reqField fs "num_dependencies" decodeNat) fun num_dependencies =>
      obind (reqField fs "packages" (decodeList decodePackageDescriptorAndLockfile)) fun packages =>
      obind (reqField fs "pass" decodeBool) fun pass =>
      obind (reqField fs "msg" decodeString) fun msg =>
      obind (reqField fs "date" decodeString) fun date =>
      obind (defField fs "ecosystems" (decodeList decodeString) []) fun ecosystems =>
      obind (defField fs "num_incomplete" decodeNat 0) fun num_incomplete =>
      some { job_id := job_id, project := project, label := label,
             num_dependencies := num_dependencies, packages := packages, pass := pass,
             msg := msg, date := date, ecosystems := ecosystems,
             num_incomplete := num_incomplete }
  | _ => none

/-- `struct SubmitPackageRequest`; group_name is omitted from the encoding
when absent. -/
structure SubmitPackageRequest where
  packages : List PackageDescriptorAndLockfile
  is_user : Bool
  project : String
  label : String
  group_name : Option String
deriving DecidableEq, Repr

def encodeSubmitPackageRequest (r : SubmitPackageRequest) : Json :=
  .obj ([("packages", .arr (r.packages.map encodePackageDescriptorAndLockfile)),
         ("is_user", .bool r.is_user), ("project", .str r.project),
         ("label", .str r.label)] ++
    (match r.group_name with | none => [] | some s => [("group_name", Json.str s)]))

def decodeSubmitPackageRequest : Json → Option SubmitPackageRequest
  | .obj fs =>
      obind (reqField fs "packages" (decodeList decodePackageDescriptorAndLockfile)) fun packages =>
      obind (reqField fs "is_user" decodeBool) fun is_user =>
      obind (reqField fs "project" decodeString) fun project =>
      obind (reqField fs "label" decodeString) fun label =>
      obind (optField fs "group_name" decodeString) fun group_name =>
      some { packages := packages, is_user := is_user, project := project,
             label := label, group_name := group_name }
  | _ => none

/-- `struct SubmitPackageResponse`. -/
structure SubmitPackageResponse where
  job_id : String
deriving DecidableEq, Repr

def encodeSubmitPackageResponse (r : SubmitPackageResponse) : Json :=
  .obj [("job_id", .str r.job_id)]

def decodeSubmitPackageResponse : Json → Option SubmitPackageResponse
  | .obj fs =>
      obind (reqField fs "job_id" decodeString) fun job_id =>
      some { job_id := job_id }
  | _ => none

/-- `struct AllJobsStatusResponse`. -/
structure AllJobsStatusResponse where
  jobs : List JobDescriptor
  total_jobs : Nat
  count : Nat
deriving DecidableEq, Repr

def encodeAllJobsStatusResponse (r : AllJobsStatusResponse) : Json :=
  .obj [("jobs", .arr (r.jobs.map encodeJobDescriptor)),
        ("total_jobs", .num r.total_jobs), ("count", .num r.count)]

def decodeAllJobsStatusResponse : Json → Option AllJobsStatusResponse
  | .obj fs =>
      obind (reqField fs "jobs" (decodeList decodeJobDescriptor)) fun jobs =>
      obind (reqField fs "total_jobs" decodeNat) fun total_jobs =>
      obind (reqField fs "count" decodeNat) fun count =>
      some { jobs := jobs, total_jobs := total_jobs, count := count }
  | _ => none

/-- `struct CancelJobResponse`. -/
structure CancelJobResponse where
  msg : String
deriving DecidableEq, Repr

def encodeCancelJobResponse (r : CancelJobResponse) : Json :=
  .obj [("msg", .str r.msg)]

def decodeCancelJobResponse : Json → Option CancelJobResponse
  | .obj fs =>
      obind (reqField fs "msg" decodeString) fun msg =>
      some { msg := msg }
  | _ => none

/-- `struct PackageStatus` (snake_case keys; purl and num_vulnerabilities
are omitted from the encoding when absent). -/
structure PackageStatus where
  purl : Option String
  name : String
  version : String
  status : Status
  last_updated : Nat
  license : Option String
  package_score : Option Rat
  num_dependencies : Nat
  num_vulnerabilities : Option Nat
deriving DecidableEq, Repr

/-- The wire fields of a PackageStatus, shared with the flattened encoding
inside PackageStatusExtended. -/
def encodePackageStatusFields (p : PackageStatus) : List (String × Json) :=
  (match p.purl with | none => [] | some s => [("purl", Json.str s)]) ++
  [("name", .str p.name), ("version", .str p.version), ("status", encodeStatus p.status),
   ("last_updated", .num p.last_updated), ("license", encodeOpt Json.str p.license),
   ("package_score", encodeOpt Json.num p.package_score),
   ("num_dependencies", .num p.num_dependencies)] ++
  (match p.num_vulnerabilities with | none => [] | some n => [("num_vulnerabilities", Json.num n)])

def encodePackageStatus (p : PackageStatus) : Json :=
  .obj (encodePackageStatusFields p)

/-- Decode a PackageStatus from an object's field list. -/
def decodePackageStatusFields (fs : List (String × Json)) : Option PackageStatus :=
  obind (optField fs "purl" decodeString) fun purl =>
  obind (reqField fs "name" decodeString) fun name =>
  obind (reqField fs "version" decodeString) fun version =>
  obind (reqField fs "status" decodeStatus) fun status =>
  obind (reqField fs "last_updated" decodeNat) fun last_updated =>
  obind (optField fs "license" decodeString) fun license =>
  obind (optField fs "package_score" decodeRat) fun package_score =>
  obind (reqField fs "num_dependencies" decodeNat) fun num_dependencies =>
  obind (optField fs "num_vulnerabilities" decodeNat) fun num_vulnerabilities =>
  some { purl := purl, name := name, version := version, status := status,
         last_updated := last_updated, license := license, package_score := package_score,
         num_dependencies := num_dependencies, num_vulnerabilities := num_vulnerabilities }

def decodePackageStatus : Json → Option PackageStatus
  | .obj fs => decodePackageStatusFields fs
  | _ => none

/-- `struct IssueStatus`: a flattened Issue plus an ignored reason
(serde(default), so a missing key is None). -/
structure IssueStatus where
  issue : Issue
  ignored : Option String
deriving DecidableEq, Repr

def encodeIssueStatus (i : IssueStatus) : Json :=
  .obj (encodeIssueFields i.issue ++ [("ignored", encodeOpt Json.str i.ignored)])

def decodeIssueStatus : Json → Option IssueStatus
  | .obj fs => do
      let issue ← decodeIssueFields fs
      let ignored ← optField fs "ignored" decodeString
      some { issue := issue, ignored := ignored }
  | _ => none

/-- `struct PackageStatusExtended`: flattens PackageStatus at the top level
and adds "type", "riskVectors", "dependencies" and "issues" (the two maps
modelled as association lists). -/
structure PackageStatusExtended where
  basic_status : PackageStatus
  package_type : PackageType
  risk_vectors : List (String × Rat)
  dependencies : List (String × String)
  issues : List IssueStatus
deriving DecidableEq, Repr

def encodePackageStatusExtended (p : PackageStatusExtended) : Json :=
  .obj (encodePackageStatusFields p.basic_status ++
    [("type", encodePackageType p.package_type),
     ("riskVectors", encodeStrMap Json.num p.risk_vectors),
     ("dependencies", encodeStrMap Json.str p.dependencies),
     ("issues", .arr (p.issues.map encodeIssueStatus))])

def decodePackageStatusExtended : Json → Option PackageStatusExtended
  | .obj fs =>
      obind (decodePackageStatusFields fs) fun basic_status =>
      obind (reqField fs "type" decodePackageType) fun package_type =>
      obind (reqField fs "riskVectors" (decodeStrMap decodeRat)) fun risk_vectors =>
      obind (reqField fs "dependencies" (decodeStrMap decodeString)) fun dependencies =>
      obind (reqField fs "issues" (decodeList decodeIssueStatus)) fun issues =>
      some { basic_status := basic_status, package_type := package_type,
             risk_vectors := risk_vectors, dependencies := dependencies, issues := issues }
  | _ => none

/-- `struct JobStatusResponse<T>`: the polling envelope, generic in the
per-package status shape. -/
structure JobStatusResponse (T : Type) where
  job_id : String
  ecosystems : List String
  user_id : String
  user_email : String
  created_at : Int
  status : Status
  pass : Bool
  msg : String
  num_incomplete : Nat
  last_updated : Nat
  project : String
  project_name : String
  label : Option String
  packages : List T
deriving DecidableEq, Repr

def encodeJobStatusResponse (encT : α → Json) (r : JobStatusResponse α) : Json :=
  .obj [("job_id", .str r.job_id),
        ("ecosystems", .arr (r.ecosystems.map Json.str)),
        ("user_id", .str r.user_id),
        ("user_email", .str r.user_email),
        ("created_at", .num r.created_at),
        ("status", encodeStatus r.status),
        ("pass", .bool r.pass),
        ("msg", .str r.msg),
        ("num_incomplete", .num r.num_incomplete),
        ("last_updated", .num r.last_updated),
        ("project", .str r.project),
        ("project_name", .str r.project_name),
        ("label", encodeOpt Json.str r.label),
        ("packages", .arr (r.packages.map encT))]

/-- Decode a JobStatusResponse whose packages decode with `decT`;
ecosystems and num_incomplete carry `#[serde(default)]`, label is
optional, everything else is required. -/
def decodeJobStatusResponse (decT : Json → Option α) : Json → Option (JobStatusResponse α)
  | .obj fs =>
      obind (reqField fs "job_id" decodeString) fun job_id =>
      obind (defField fs "ecosystems" (decodeList decodeString) []) fun ecosystems =>
      obind (reqField fs "user_id" decodeString) fun user_id =>
      obind (reqField fs "user_email" decodeString) fun user_email =>
      obind (reqField fs "created_at" decodeInt) fun created_at =>
      obind (reqField fs "status" decodeStatus) fun status =>
      obind (reqField fs "pass" decodeBool) fun pass =>
      obind (reqField fs "msg" decodeString) fun msg =>
      obind (defField fs "num_incomplete" decodeNat 0) fun num_incomplete =>
      obind (reqField fs "last_updated" decodeNat) fun last_updated =>
      obind (reqField fs "project" decodeString) fun project =>
      obind (reqField fs "project_name" decodeString) fun project_name =>
      obind (optField fs "label" decodeString) fun label =>
      obind (reqField fs "packages" (decodeList decT)) fun packages =>
      some { job_id := job_id, ecosystems := ecosystems, user_id := user_id,
             user_email := user_email, created_at := created_at, status := status,
             pass := pass, msg := msg, num_incomplete := num_incomplete,
             last_updated := last_updated, project := project, project_name := project_name,
             label := label, packages := packages }
  | _ => none

/-- `enum JobStatusResponseVariant` (serde untagged): Extended is declared
first, Basic second. -/
inductive JobStatusResponseVariant where
  | Extended (r : JobStatusResponse PackageStatusExtended)
  | Basic (r : JobStatusResponse PackageStatus)
deriving DecidableEq, Repr

/-- Untagged decode: serde tries the variants in declaration order and
returns the first that deserializes, so the Extended shape is attempted
first and Basic is used only when Extended fails. -/
def decodeJobStatusResponseVariant (j : Json) : Option JobStatusResponseVariant :=
  match decodeJobStatusResponse decodePackageStatusExtended j with
  | some e => some (.Extended e)
  | none => (decodeJobStatusResponse decodePackageStatus j).map .Basic

/-- Key lookup on an encoded object (none on non-objects). -/
def objGet : Json → String → Option Json
  | .obj fs, k => jsonField fs k
  | _, _ => none

/-- Whether an encoded object carries a key at all (false on
non-objects). -/
def objHasKey (j : Json) (k : String) : Bool :=
  (objGet j k).isSome

/-- The full alias table of the FromStr parse, as lowercase strings. -/
def ecosystemAliases : List String :=
  ["npm", "python", "pypi", "maven", "maven-central", "ruby", "rubygems", "gem",
   "nuget", "dotnet", "cargo", "golang"]

/-! ## Concrete values used by witnesses and counterexamples -/

/-- An Issue whose serde-skipped internal rule identifier is present. -/
def issueWithRule : Issue :=
  { tag := none, id := none, title := "title", description := "descr",
    severity := .Low, domain := .LicenseRisk, rule := some "internal-rule-id" }

/-- An Issue with no internal rule identifier. -/
def issuePlain : Issue :=
  { tag := some "tag", id := some "id", title := "title", description := "descr",
    severity := .High, domain := .Malicious, rule := none }

/-- A per-package payload carrying every required PackageStatus field AND
every extra required PackageStatusExtended field. -/
def extendedPackagePayload : Json :=
  .obj [("name", .str "left-pad"), ("version", .str "1.0.0"),
        ("status", .str "complete"), ("last_updated", .num 5),
        ("license", .null), ("package_score", .num 1),
        ("num_dependencies", .num 2),
        ("type", .str "npm"),
        ("riskVectors", .obj [("vulnerability", .num 1)]),
        ("dependencies", .obj [("dep", .str "1.0.0")]),
        ("issues", .arr [])]

/-- A full job-status payload whose single package uses
`extendedPackagePayload`: it satisfies both the Basic and the Extended
shape. -/
def extendedJobPayload : Json :=
  .obj [("job_id", .str "job-123"), ("user_id", .str "user-1"),
        ("user_email", .str "user@example.com"), ("created_at", .num 0),
        ("status", .str "complete"), ("pass", .bool true), ("msg", .str "ok"),
        ("last_updated", .num 0), ("project", .str "proj-1"),
        ("project_name", .str "proj"), ("label", .str "main"),
        ("packages", .arr [extendedPackagePayload])]

/-- The PackageStatus embedded in `extendedPackagePayload`. -/
def expectedBasicStatus : PackageStatus :=
  { purl := none, name := "left-pad", version := "1.0.0", status := .Complete,
    last_updated := 5, license := none, package_score := some 1,
    num_dependencies := 2, num_vulnerabilities := none }

/-- The Extended decoding of `extendedJobPayload`. -/
def expectedExtendedResponse : JobStatusResponse PackageStatusExtended :=
  { job_id := "job-123", ecosystems := [], user_id := "user-1",
    user_email := "user@example.com", created_at := 0, status := .Complete,
    pass := true, msg := "ok", num_incomplete := 0, last_updated := 0,
    project := "proj-1", project_name := "proj", label := some "main",
    packages := [{ basic_status := expectedBasicStatus, package_type := .Npm,
                   risk_vectors := [("vulnerability", 1)],
                   dependencies := [("dep", "1.0.0")], issues := [] }] }

/-- The Basic decoding the same payload would admit, showing the payload
genuinely satisfies both shapes. -/
def expectedBasicResponse : JobStatusResponse PackageStatus :=
  { job_id := "job-123", ecosystems := [], user_id := "user-1",
    user_email := "user@example.com", created_at := 0, status := .Complete,
    pass := true, msg := "ok", num_incomplete := 0, last_updated := 0,
    project := "proj-1", project_name := "proj", label := some "main",
    packages := [expectedBasicStatus] }

/-! ## Theorems -/

/-- Claim C9: the RiskDomain → RiskType conversion is total, deterministic
and equals the fixed table, and no RiskDomain maps to TotalRisk. -/
theorem risk_domain_to_risk_type_table :
    riskTypeFromRiskDomain .AuthorRisk = .AuthorsRisk ∧
    riskTypeFromRiskDomain .EngineeringRisk = .EngineeringRisk ∧
    riskTypeFromRiskDomain .Malicious = .MaliciousRisk ∧
    riskTypeFromRiskDomain .Vulnerabilities = .Vulnerabilities ∧
    riskTypeFromRiskDomain .LicenseRisk = .LicenseRisk ∧
    ∀ d : RiskDomain, riskTypeFromRiskDomain d ≠ .TotalRisk :=
  ⟨rfl, rfl, rfl, rfl, rfl, fun d => by cases d <;> decide⟩

/-- Claim C8: converting any PackageType to the purl vocabulary and back
returns the original value, and an unsupported purl type (Composer) yields
the typed UnsupportedPackageType error. -/
theorem purl_roundtrip_and_unsupported :
    (∀ t : PackageType, packageTypeFromPurl (purlFromPackageType t) = .ok t) ∧
    packageTypeFromPurl .Composer = .error .mk :=
  ⟨fun t => by cases t <;> rfl, rfl⟩

/-- Claim C4: converting a PackageDescriptor to a PackageSpecifier (via the
canonical display form of its PackageType) and back succeeds and returns
the original descriptor. -/
theorem descriptor_specifier_roundtrip :
    ∀ d : PackageDescriptor,
      descriptorFromSpecifier (specifierFromDescriptor d) = .ok d := by
  intro d
  obtain ⟨n, v, t⟩ := d
  cases t <;> rfl

/-- Claim C6 counterexample: the FromStr parse error is Rust's unit type;
two different unknown inputs produce identical errors, so the error the
parse returns cannot carry the offending input string. -/
theorem fromStr_error_carries_nothing :
    packageTypeFromStr "cocoapods" = packageTypeFromStr "swift" ∧
    packageTypeFromStr "cocoapods" = .error () :=
  ⟨rfl, rfl⟩

/-- Claim C6 (amended): the string-level parse returns a unit error with no
diagnostics; the offending registry string is carried one level up, in the
error of the specifier → descriptor conversion, which embeds it
verbatim. -/
theorem specifier_conversion_error_names_registry :
    ∀ s : PackageSpecifier, packageTypeFromStr s.registry = .error () →
      descriptorFromSpecifier s =
        .error ("Failed to convert registry " ++ s.registry ++ " to package type") := by
  intro s h
  obtain ⟨r, n, v⟩ := s
  simp only [descriptorFromSpecifier] at *
  rw [h]

/-- Witness for C6's amended theorem at the registry "cocoapods". -/
theorem specifier_conversion_error_names_registry_witness :
    descriptorFromSpecifier { registry := "cocoapods", name := "left-pad", version := "1.0.0" } =
      .error ("Failed to convert registry " ++ "cocoapods" ++ " to package type") :=
  specifier_conversion_error_names_registry
    { registry := "cocoapods", name := "left-pad", version := "1.0.0" } rfl

/-- Claim C7: the parse lower-cases its input, every listed alias in any
letter casing parses to its specified PackageType, and every input whose
lowercase form is outside the alias table yields the typed error. -/
theorem parse_package_type_alias_table :
    (∀ s, strLower s = "npm" → packageTypeFromStr s = .ok .Npm) ∧
    (∀ s, strLower s = "python" → packageTypeFromStr s = .ok .PyPi) ∧
    (∀ s, strLower s = "pypi" → packageTypeFromStr s = .ok .PyPi) ∧
    (∀ s, strLower s = "maven" → packageTypeFromStr s = .ok .Maven) ∧
    (∀ s, strLower s = "maven-central" → packageTypeFromStr s = .ok .Maven) ∧
    (∀ s, strLower s = "ruby" → packageTypeFromStr s = .ok .RubyGems) ∧
    (∀ s, strLower s = "rubygems" → packageTypeFromStr s = .ok .RubyGems) ∧
    (∀ s, strLower s = "gem" → packageTypeFromStr s = .ok .RubyGems) ∧
    (∀ s, strLower s = "nuget" → packageTypeFromStr s = .ok .Nuget) ∧
    (∀ s, strLower s = "dotnet" → packageTypeFromStr s = .ok .Nuget) ∧
    (∀ s, strLower s = "cargo" → packageTypeFromStr s = .ok .Cargo) ∧
    (∀ s, strLower s = "golang" → packageTypeFromStr s = .ok .Golang) ∧
    (∀ s, strLower s ∉ ecosystemAliases → packageTypeFromStr s = .error ()) := by
  have tab : ∀ s, strLower s ∉ ecosystemAliases → packageTypeFromStr s = .error () := by
    intro s h
    unfold packageTypeFromStr
    split <;> simp_all [ecosystemAliases]
  refine ⟨?_, ?_, ?_, ?_, ?_, ?_, ?_, ?_, ?_, ?_, ?_, ?_, tab⟩ <;>
    intro s h <;> simp [packageTypeFromStr, h]

/-- Witness for C7 at mixed-case aliases and at an unknown ecosystem. -/
theorem parse_package_type_alias_table_witness :
    packageTypeFromStr "NPM" = .ok .Npm ∧
    packageTypeFromStr "PyPI" = .ok .PyPi ∧
    packageTypeFromStr "Maven-Central" = .ok .Maven ∧
    packageTypeFromStr "cocoapods" = .error () :=
  ⟨parse_package_type_alias_table.1 "NPM" rfl,
   parse_package_type_alias_table.2.2.1 "PyPI" rfl,
   parse_package_type_alias_table.2.2.2.2.1 "Maven-Central" rfl,
   parse_package_type_alias_table.2.2.2.2.2.2.2.2.2.2.2.2 "cocoapods" (by decide)⟩

/-- Claim C3: for each legacy alias in the field-name contract, a payload
using the legacy name decodes to the same value as the otherwise-identical
payload using the canonical name. -/
theorem legacy_alias_decoding :
    (decodeRiskDomain (.str "malicious") = decodeRiskDomain (.str "malicious_code") ∧
      decodeRiskDomain (.str "malicious") = some .Malicious) ∧
    (∀ tag id title descr sev dom : Json,
      decodeIssue (.obj [("tag", tag), ("id", id), ("title", title), ("description", descr),
        ("risk_level", sev), ("domain", dom)]) =
      decodeIssue (.obj [("tag", tag), ("id", id), ("title", title), ("description", descr),
        ("severity", sev), ("domain", dom)])) ∧
    (∀ tag id title descr sev dom : Json,
      decodeIssue (.obj [("tag", tag), ("id", id), ("title", title), ("description", descr),
        ("severity", sev), ("risk_domain", dom)]) =
      decodeIssue (.obj [("tag", tag), ("id", id), ("title", title), ("description", descr),
        ("severity", sev), ("domain", dom)])) ∧
    (decodeRiskType (.str "maliciousRisk") = decodeRiskType (.str "maliciousCodeRisk") ∧
      decodeRiskType (.str "maliciousRisk") = some .MaliciousRisk) ∧
    (∀ t v m a e l : Json,
      decodeRiskScores (.obj [("total", t), ("vulnerability", v), ("malicious", m),
        ("author", a), ("engineering", e), ("license", l)]) =
      decodeRiskScores (.obj [("total", t), ("vulnerability", v), ("malicious_code", m),
        ("author", a), ("engineering", e), ("license", l)])) ∧
    (∀ r n v : Json,
      decodePackageSpecifier (.obj [("type", r), ("name", n), ("version", v)]) =
      decodePackageSpecifier (.obj [("registry", r), ("name", n), ("version", v)])) ∧
    (∀ n v t : Json,
      decodePackageDescriptor (.obj [("name", n), ("version", v), ("registry", t)]) =
      decodePackageDescriptor (.obj [("name", n), ("version", v), ("type", t)])) := by
  refine ⟨⟨rfl, rfl⟩, ?_, ?_, ⟨rfl, rfl⟩, ?_, ?_, ?_⟩ <;> intros <;>
    simp [decodeIssue, decodeIssueFields, decodeRiskScores, decodePackageSpecifier,
      decodePackageDescriptor, decodePackageDescriptorFields, reqField, reqFieldAka,
      optField, jsonField, Option.orElse]

/-- Claim C5: AlreadyProcessed encodes with "status" holding the variant
name and "data" holding the package's encoding; AlreadySubmitted and New
encode with the "status" key and no "data" key present at all. -/
theorem submit_response_tag_content :
    (∀ pkg : Package,
      objGet (encodePackageSubmitResponse (.AlreadyProcessed pkg)) "status" =
        some (.str "AlreadyProcessed") ∧
      objGet (encodePackageSubmitResponse (.AlreadyProcessed pkg)) "data" =
        some (encodePackage pkg)) ∧
    (objGet (encodePackageSubmitResponse .AlreadySubmitted) "status" =
        some (.str "AlreadySubmitted") ∧
      objHasKey (encodePackageSubmitResponse .AlreadySubmitted) "data" = false) ∧
    (objGet (encodePackageSubmitResponse .New) "status" = some (.str "New") ∧
      objHasKey (encodePackageSubmitResponse .New) "data" = false) := by
  refine ⟨?_, ⟨rfl, rfl⟩, ⟨rfl, rfl⟩⟩
  intro pkg
  constructor <;> rfl

/-! ### Round-trip helper lemmas -/

theorem mapOption_map {dec : β → Option α} {enc : α → β} {l : List α}
    (h : ∀ x ∈ l, dec (enc x) = some x) :
    mapOption dec (l.map enc) = some l := by
  induction l with
  | nil => rfl
  | cons x xs ih =>
    simp [mapOption, h x (by simp), ih (fun d hd => h d (by simp [hd]))]

theorem strMap_roundtrip {dec : Json → Option α} {enc : α → Json} {m : List (String × α)}
    (h : ∀ kv ∈ m, dec (enc kv.2) = some kv.2) :
    decodeStrMap dec (encodeStrMap enc m) = some m := by
  unfold decodeStrMap encodeStrMap
  exact mapOption_map (fun kv hkv => by simp [h kv hkv])

theorem decodeNat_natCast (n : Nat) : decodeNat (.num n) = some n := by
  simp [decodeNat, Rat.den_natCast, Rat.num_natCast]

theorem decodeInt_intCast (i : Int) : decodeInt (.num i) = some i := by
  simp [decodeInt, Rat.den_intCast, Rat.num_intCast]

theorem riskLevel_roundtrip (v : RiskLevel) : decodeRiskLevel (encodeRiskLevel v) = some v := by
  cases v <;> rfl

theorem riskDomain_roundtrip (v : RiskDomain) : decodeRiskDomain (encodeRiskDomain v) = some v := by
  cases v <;> rfl

theorem riskType_roundtrip (v : RiskType) : decodeRiskType (encodeRiskType v) = some v := by
  cases v <;> rfl

theorem packageType_roundtrip (v : PackageType) :
    decodePackageType (encodePackageType v) = some v := by
  cases v <;> rfl

theorem status_roundtrip (v : Status) : decodeStatus (encodeStatus v) = some v := by
  cases v <;> rfl

theorem riskScores_roundtrip (r : RiskScores) :
    decodeRiskScores (encodeRiskScores r) = some r := by
  obtain ⟨t, v, m, a, e, l⟩ := r
  rfl

theorem scoredVersion_roundtrip (v : ScoredVersion) :
    decodeScoredVersion (encodeScoredVersion v) = some v := by
  obtain ⟨ver, trs⟩ := v
  cases trs <;> rfl

theorem scoreDynamicsPoint_roundtrip (p : ScoreDynamicsPoint) :
    decodeScoreDynamicsPoint (encodeScoreDynamicsPoint p) = some p := by
  obtain ⟨d, s, l⟩ := p
  rfl

theorem author_roundtrip (a : Author) : decodeAuthor (encodeAuthor a) = some a := by
  obtain ⟨n, av, e, p⟩ := a
  rfl

theorem developerResponsiveness_roundtrip (d : DeveloperResponsiveness) :
    decodeDeveloperResponsiveness (encodeDeveloperResponsiveness d) = some d := by
  obtain ⟨a, b, c, e, f, g⟩ := d
  cases a <;> cases b <;> cases c <;> cases e <;> cases f <;> cases g <;>
    simp [encodeDeveloperResponsiveness, decodeDeveloperResponsiveness, optField, jsonField,
      encodeOpt, decodeNat_natCast]

theorem packageReleaseData_roundtrip (d : PackageReleaseData) :
    decodePackageReleaseData (encodePackageReleaseData d) = some d := by
  obtain ⟨f, l⟩ := d
  rfl

theorem issuesListItem_roundtrip (i : IssuesListItem) :
    decodeIssuesListItem (encodeIssuesListItem i) = some i := by
  obtain ⟨rt, sc, im, de, ti, tag, id, ig⟩ := i
  cases tag <;> cases id <;> cases ig <;>
    simp [encodeIssuesListItem, decodeIssuesListItem, reqField, optField, jsonField,
      encodeOpt, decodeString, decodeRat, riskType_roundtrip, riskLevel_roundtrip]

theorem packageSpecifier_roundtrip (s : PackageSpecifier) :
    decodePackageSpecifier (encodePackageSpecifier s) = some s := by
  obtain ⟨r, n, v⟩ := s
  rfl

theorem packageDescriptor_roundtrip (d : PackageDescriptor) :
    decodePackageDescriptor (encodePackageDescriptor d) = some d := by
  obtain ⟨n, v, t⟩ := d
  simp [encodePackageDescriptor, encodePackageDescriptorFields, decodePackageDescriptor,
    decodePackageDescriptorFields, reqField, reqFieldAka, jsonField, Option.orElse,
    decodeString, packageType_roundtrip]

theorem issue_roundtrip_clears_rule (i : Issue) :
    decodeIssue (encodeIssue i) = some { i with rule := none } := by
  obtain ⟨tag, id, ti, de, sev, dom, rule⟩ := i
  cases tag <;> cases id <;>
    simp [encodeIssue, encodeIssueFields, decodeIssue, decodeIssueFields, reqField,
      reqFieldAka, optField, jsonField, Option.orElse, encodeOpt, decodeString,
      riskLevel_roundtrip, riskDomain_roundtrip]

theorem packageStatus_roundtrip (p : PackageStatus) :
    decodePackageStatus (encodePackageStatus p) = some p := by
  obtain ⟨purl, n, v, st, lu, li, ps, nd, nv⟩ := p
  cases purl <;> cases li <;> cases ps <;> cases nv <;>
    simp [encodePackageStatus, encodePackageStatusFields, decodePackageStatus,
      decodePackageStatusFields, reqField, optField, jsonField, obind, encodeOpt,
      decodeString, decodeRat, decodeNat_natCast, status_roundtrip]

/-! ### Field-lookup lemmas used by the Package round trip -/

theorem optField_nil (k : String) (dec : Json → Option α) : optField [] k dec = some none := rfl

theorem optField_skip {k' k : String} (v : Json) (rest : List (String × Json))
    (dec : Json → Option α) (h : ¬ k' = k) :
    optField ((k', v) :: rest) k dec = optField rest k dec := by
  simp [optField, jsonField, h]

theorem optField_null_head (k : String) (rest : List (String × Json)) (dec : Json → Option α) :
    optField ((k, Json.null) :: rest) k dec = some none := by
  simp [optField, jsonField]

theorem optField_head_of_roundtrip {dec : Json → Option α} {enc : α → Json} {x : α}
    {rest : List (String × Json)} {k : String}
    (h : dec (enc x) = some x) (hnull : dec .null = none) :
    optField ((k, enc x) :: rest) k dec = some (some x) := by
  cases hx : enc x <;> rw [hx] at h <;> simp [optField, jsonField, h]
  rw [hnull] at h
  cases h

theorem optField_encodeOpt_head {dec : Json → Option α} {enc : α → Json}
    (hdec : ∀ x, dec (enc x) = some x) (hnull : dec .null = none)
    (o : Option α) (rest : List (String × Json)) (k : String) :
    optField ((k, encodeOpt enc o) :: rest) k dec = some o := by
  cases o with
  | none => simp [optField, jsonField, encodeOpt]
  | some x => exact optField_head_of_roundtrip (hdec x) hnull

theorem optField_str_head (o : Option String) (rest : List (String × Json)) (k : String) :
    optField ((k, encodeOpt Json.str o) :: rest) k decodeString = some o :=
  @optField_encodeOpt_head String decodeString Json.str (fun _ => rfl) rfl o rest k

theorem optField_str_some_head (s : String) (rest : List (String × Json)) (k : String) :
    optField ((k, Json.str s) :: rest) k decodeString = some (some s) := by
  simp [optField, jsonField, decodeString]

theorem optField_bool_head (o : Option Bool) (rest : List (String × Json)) (k : String) :
    optField ((k, encodeOpt Json.bool o) :: rest) k decodeBool = some o :=
  @optField_encodeOpt_head Bool decodeBool Json.bool (fun _ => rfl) rfl o rest k

theorem optField_devResp_head (o : Option DeveloperResponsiveness)
    (rest : List (String × Json)) (k : String) :
    optField ((k, encodeOpt encodeDeveloperResponsiveness o) :: rest) k
      decodeDeveloperResponsiveness = some o :=
  @optField_encodeOpt_head DeveloperResponsiveness decodeDeveloperResponsiveness
    encodeDeveloperResponsiveness developerResponsiveness_roundtrip rfl o rest k

theorem optField_releaseData_head (o : Option PackageReleaseData)
    (rest : List (String × Json)) (k : String) :
    optField ((k, encodeOpt encodePackageReleaseData o) :: rest) k
      decodePackageReleaseData = some o :=
  @optField_encodeOpt_head PackageReleaseData decodePackageReleaseData
    encodePackageReleaseData packageReleaseData_roundtrip rfl o rest k

theorem decodeList_scoredVersion (l : List ScoredVersion) :
    decodeList decodeScoredVersion (.arr (l.map encodeScoredVersion)) = some l :=
  mapOption_map (fun x _ => scoredVersion_roundtrip x)

theorem decodeList_specifier (l : List PackageSpecifier) :
    decodeList decodePackageSpecifier (.arr (l.map encodePackageSpecifier)) = some l :=
  mapOption_map (fun x _ => packageSpecifier_roundtrip x)

theorem decodeList_scoreDynamics (l : List ScoreDynamicsPoint) :
    decodeList decodeScoreDynamicsPoint (.arr (l.map encodeScoreDynamicsPoint)) = some l :=
  mapOption_map (fun x _ => scoreDynamicsPoint_roundtrip x)

theorem decodeList_issuesListItem (l : List IssuesListItem) :
    decodeList decodeIssuesListItem (.arr (l.map encodeIssuesListItem)) = some l :=
  mapOption_map (fun x _ => issuesListItem_roundtrip x)

theorem decodeList_author (l : List Author) :
    decodeList decodeAuthor (.arr (l.map encodeAuthor)) = some l :=
  mapOption_map (fun x _ => author_roundtrip x)

theorem optField_dynList_head (o : Option (List ScoreDynamicsPoint))
    (rest : List (String × Json)) (k : String) :
    optField ((k, encodeOpt (fun l => Json.arr (l.map encodeScoreDynamicsPoint)) o) :: rest) k
      (decodeList decodeScoreDynamicsPoint) = some o :=
  @optField_encodeOpt_head (List ScoreDynamicsPoint) (decodeList decodeScoreDynamicsPoint)
    (fun l => Json.arr (l.map encodeScoreDynamicsPoint)) decodeList_scoreDynamics rfl o rest k

theorem defField_head (k : String) (v : Json) (rest : List (String × Json))
    (dec : Json → Option α) (d : α) :
    defField ((k, v) :: rest) k dec d = dec v := by
  simp [defField, jsonField]

theorem defField_skip {k' k : String} (v : Json) (rest : List (String × Json))
    (dec : Json → Option α) (d : α) (h : ¬ k' = k) :
    defField ((k', v) :: rest) k dec d = defField rest k dec d := by
  simp [defField, jsonField, h]

theorem issue_roundtrip_of_rule_none {i : Issue} (h : i.rule = none) :
    decodeIssue (encodeIssue i) = some i := by
  rw [issue_roundtrip_clears_rule]
  obtain ⟨tag, id, ti, de, sev, dom, rule⟩ := i
  simp only at h
  subst h
  rfl

/-! ### The Package round trip -/

theorem packageHeight_le_of_mem {d : Package} {l : List Package} (hd : d ∈ l) :
    packageHeight d ≤ packageListHeight l := by
  induction l with
  | nil => cases hd
  | cons x xs ih =>
    rcases List.mem_cons.mp hd with rfl | hd
    · simp only [packageListHeight, le_max_iff]
      exact Or.inl le_rfl
    · simp only [packageListHeight, le_max_iff]
      exact Or.inr (ih hd)

theorem packageListRuleFree_of_mem {d : Package} {l : List Package} (hd : d ∈ l)
    (h : packageListRuleFree l = true) : packageRuleFree d = true := by
  induction l with
  | nil => cases hd
  | cons x xs ih =>
    rw [packageListRuleFree] at h
    rcases Bool.and_eq_true_iff.mp h with ⟨h1, h2⟩
    rcases List.mem_cons.mp hd with rfl | hd
    · exact h1
    · exact ih hd h2

theorem encodePackageList_eq (l : List Package) :
    encodePackageList l = l.map encodePackage := by
  induction l with
  | nil => simp [encodePackageList]
  | cons x xs ih => simp [encodePackageList, ih]

theorem package_roundtrip_fuel :
    ∀ fuel p, packageHeight p ≤ fuel → packageRuleFree p = true →
      decodePackageFuel fuel (encodePackage p) = some p := by
  intro fuel
  induction fuel with
  | zero =>
    intro p hp _
    obtain ⟨purl, id, n, v, r, pd, lv, vs, de, li, ds, deps, dc, rs, dy, isd, iss, au, dr,
      c, rd, ru, mc, ab⟩ := p
    cases deps <;> simp [packageHeight] at hp
  | succ nf ih =>
    intro p hp hr
    obtain ⟨purl, id, n, v, r, pd, lv, vs, de, li, ds, deps, dc, rs, dy, isd, iss, au, dr,
      c, rd, ru, mc, ab⟩ := p
    cases deps with
    | none =>
      simp only [packageRuleFree, Bool.and_true, List.all_eq_true, decide_eq_true_eq] at hr
      have hisd : decodeList decodeIssue (Json.arr (isd.map encodeIssue)) = some isd :=
        mapOption_map (fun i hi => issue_roundtrip_of_rule_none (hr i hi))
      cases purl <;>
        simp [encodePackage, decodePackageFuel, decodePackageFields, obind,
          optField_nil, optField_skip, optField_null_head, optField_str_head,
          optField_str_some_head, optField_bool_head, optField_devResp_head,
          optField_releaseData_head, optField_dynList_head, defField_head, defField_skip,
          decodeString, decodeBool, decodeNat_natCast, riskScores_roundtrip,
          decodeList_scoredVersion, decodeList_specifier, decodeList_issuesListItem,
          decodeList_author, hisd]
    | some l =>
      simp only [packageRuleFree, Bool.and_eq_true, List.all_eq_true, decide_eq_true_eq] at hr
      obtain ⟨hIssues, hrDeps⟩ := hr
      have hisd : decodeList decodeIssue (Json.arr (isd.map encodeIssue)) = some isd :=
        mapOption_map (fun i hi => issue_roundtrip_of_rule_none (hIssues i hi))
      simp only [packageHeight] at hp
      have hdl : ∀ d ∈ l, packageHeight d ≤ nf := by
        intro d hd
        have := packageHeight_le_of_mem hd
        omega
      have hdeps : decodeList (decodePackageFuel nf) (Json.arr (encodePackageList l)) = some l := by
        rw [encodePackageList_eq]
        exact mapOption_map
          (fun d hd => ih d (hdl d hd) (packageListRuleFree_of_mem hd hrDeps))
      have hdepsField := fun (rest : List (String × Json)) (k : String) =>
        @optField_head_of_roundtrip (List Package) (decodeList (decodePackageFuel nf))
          (fun ps => Json.arr (encodePackageList ps)) l rest k hdeps rfl
      cases purl <;>
        simp [encodePackage, decodePackageFuel, decodePackageFields, obind,
          optField_nil, optField_skip, optField_str_head,
          optField_str_some_head, optField_bool_head, optField_devResp_head,
          optField_releaseData_head, optField_dynList_head, defField_head, defField_skip,
          decodeString, decodeBool, decodeNat_natCast, riskScores_roundtrip,
          decodeList_scoredVersion, decodeList_specifier, decodeList_issuesListItem,
          decodeList_author, hisd, hdepsField]

theorem issueStatus_roundtrip (i : IssueStatus) (h : i.issue.rule = none) :
    decodeIssueStatus (encodeIssueStatus i) = some i := by
  obtain ⟨iss, ig⟩ := i
  obtain ⟨tag, id, ti, de, sev, dom, rule⟩ := iss
  simp only at h
  subst h
  cases tag <;> cases id <;> cases ig <;>
    simp [encodeIssueStatus, encodeIssueFields, decodeIssueStatus, decodeIssueFields,
      reqField, reqFieldAka, optField, jsonField, Option.orElse, encodeOpt, decodeString,
      riskLevel_roundtrip, riskDomain_roundtrip]

theorem strMap_num_roundtrip (m : List (String × Rat)) :
    decodeStrMap decodeRat (encodeStrMap Json.num m) = some m :=
  strMap_roundtrip (fun _ _ => rfl)

theorem strMap_str_roundtrip (m : List (String × String)) :
    decodeStrMap decodeString (encodeStrMap Json.str m) = some m :=
  strMap_roundtrip (fun _ _ => rfl)

theorem packageStatusExtended_roundtrip (p : PackageStatusExtended)
    (h : ∀ i ∈ p.issues, i.issue.rule = none) :
    decodePackageStatusExtended (encodePackageStatusExtended p) = some p := by
  obtain ⟨b, t, rv, dm, iss⟩ := p
  simp only at h
  have hiss : decodeList decodeIssueStatus (Json.arr (iss.map encodeIssueStatus)) = some iss :=
    mapOption_map (fun i hi => issueStatus_roundtrip i (h i hi))
  obtain ⟨purl, n, v, st, lu, li, ps, nd, nv⟩ := b
  cases purl <;> cases li <;> cases ps <;> cases nv <;>
    simp [encodePackageStatusExtended, encodePackageStatusFields, decodePackageStatusExtended,
      decodePackageStatusFields, reqField, optField, jsonField, obind, encodeOpt,
      decodeString, decodeRat, decodeNat_natCast, status_roundtrip, packageType_roundtrip,
      strMap_num_roundtrip, strMap_str_roundtrip, hiss]

theorem decodeList_str (l : List String) :
    decodeList decodeString (.arr (l.map Json.str)) = some l :=
  mapOption_map (fun _ _ => rfl)

theorem packageDescriptorAndLockfile_roundtrip (p : PackageDescriptorAndLockfile) :
    decodePackageDescriptorAndLockfile (encodePackageDescriptorAndLockfile p) = some p := by
  obtain ⟨⟨n, v, t⟩, lf⟩ := p
  cases lf <;>
    simp [encodePackageDescriptorAndLockfile, encodePackageDescriptorFields,
      decodePackageDescriptorAndLockfile, decodePackageDescriptorFields, reqField,
      reqFieldAka, optField, jsonField, obind, Option.orElse, decodeString,
      packageType_roundtrip]

theorem decodeList_padl (l : List PackageDescriptorAndLockfile) :
    decodeList decodePackageDescriptorAndLockfile
      (.arr (l.map encodePackageDescriptorAndLockfile)) = some l :=
  mapOption_map (fun x _ => packageDescriptorAndLockfile_roundtrip x)

theorem packageSpecifierAndLockfile_roundtrip (p : PackageSpecifierAndLockfile) :
    decodePackageSpecifierAndLockfile (encodePackageSpecifierAndLockfile p) = some p := by
  obtain ⟨ps, lf⟩ := p
  cases lf <;>
    simp [encodePackageSpecifierAndLockfile, decodePackageSpecifierAndLockfile, reqField,
      optField, jsonField, obind, encodeOpt, decodeString, packageSpecifier_roundtrip]

theorem packageUrlAndLockfile_roundtrip (p : PackageUrlAndLockfile) :
    decodePackageUrlAndLockfile (encodePackageUrlAndLockfile p) = some p := by
  obtain ⟨pu, lf⟩ := p
  cases lf <;> rfl

theorem heuristicResult_roundtrip (h : HeuristicResult) :
    decodeHeuristicResult (encodeHeuristicResult h) = some h := by
  obtain ⟨d, sc, rl⟩ := h
  simp [encodeHeuristicResult, decodeHeuristicResult, reqField, jsonField, obind,
    decodeRat, riskDomain_roundtrip, riskLevel_roundtrip]

theorem vulnerability_roundtrip (v : Vulnerability) :
    decodeVulnerability (encodeVulnerability v) = some v := by
  obtain ⟨cv, bs, rl, ti, de, re⟩ := v
  simp [encodeVulnerability, decodeVulnerability, reqField, jsonField, obind, decodeRat,
    decodeString, riskLevel_roundtrip, decodeList_str]

theorem submitPackageResponse_roundtrip (r : SubmitPackageResponse) :
    decodeSubmitPackageResponse (encodeSubmitPackageResponse r) = some r := by
  obtain ⟨j⟩ := r
  rfl

theorem cancelJobResponse_roundtrip (r : CancelJobResponse) :
    decodeCancelJobResponse (encodeCancelJobResponse r) = some r := by
  obtain ⟨m⟩ := r
  rfl

theorem submitPackageRequest_roundtrip (r : SubmitPackageRequest) :
    decodeSubmitPackageRequest (encodeSubmitPackageRequest r) = some r := by
  obtain ⟨pk, iu, pr, lb, gn⟩ := r
  cases gn <;>
    simp [encodeSubmitPackageRequest, decodeSubmitPackageRequest, reqField, optField,
      jsonField, obind, decodeString, decodeBool, decodeList_padl]

theorem jobDescriptor_roundtrip (j : JobDescriptor) :
    decodeJobDescriptor (encodeJobDescriptor j) = some j := by
  obtain ⟨ji, pr, lb, nd, pk, pa, ms, da, ec, ni⟩ := j
  simp [encodeJobDescriptor, decodeJobDescriptor, reqField, defField, jsonField, obind,
    decodeString, decodeBool, decodeNat_natCast, decodeList_str, decodeList_padl]

theorem decodeList_jobDescriptor (l : List JobDescriptor) :
    decodeList decodeJobDescriptor (.arr (l.map encodeJobDescriptor)) = some l :=
  mapOption_map (fun x _ => jobDescriptor_roundtrip x)

theorem allJobsStatusResponse_roundtrip (r : AllJobsStatusResponse) :
    decodeAllJobsStatusResponse (encodeAllJobsStatusResponse r) = some r := by
  obtain ⟨js, tj, ct⟩ := r
  simp [encodeAllJobsStatusResponse, decodeAllJobsStatusResponse, reqField, jsonField,
    obind, decodeNat_natCast, decodeList_jobDescriptor]

theorem jobStatusResponse_roundtrip {decT : Json → Option α} {encT : α → Json}
    (r : JobStatusResponse α) (hT : ∀ x ∈ r.packages, decT (encT x) = some x) :
    decodeJobStatusResponse decT (encodeJobStatusResponse encT r) = some r := by
  obtain ⟨ji, ec, ui, ue, ca, st, pa, ms, ni, lu, pr, pn, lb, pk⟩ := r
  have hpk : decodeList decT (Json.arr (List.map encT pk)) = some pk := mapOption_map hT
  cases lb <;>
    simp [encodeJobStatusResponse, decodeJobStatusResponse, obind, reqField, defField,
      optField, jsonField, encodeOpt, decodeString, decodeBool, decodeInt_intCast,
      decodeNat_natCast, status_roundtrip, decodeList_str, hpk]

theorem submitResponse_roundtrip_fuel :
    ∀ fuel r, submitResponseHeight r ≤ fuel → submitResponseRuleFree r = true →
      decodePackageSubmitResponse (decodePackageFuel fuel)
        (encodePackageSubmitResponse r) = some r := by
  intro fuel r hh hr
  cases r with
  | AlreadyProcessed p =>
    simp only [submitResponseHeight] at hh
    simp only [submitResponseRuleFree] at hr
    simp [encodePackageSubmitResponse, decodePackageSubmitResponse, jsonField, reqField,
      obind, package_roundtrip_fuel fuel p hh hr]
  | AlreadySubmitted => rfl
  | New => rfl

/-- Claim C2 counterexample: an Issue carrying the internal rule identifier
does not round-trip: the encoder never emits the rule field, so the decoder
cannot restore it. -/
theorem issue_with_rule_not_restored :
    decodeIssue (encodeIssue issueWithRule) ≠ some issueWithRule := by
  decide

/-- Claim C2 (amended): encode-then-decode returns the original value for
every concrete wire type of the model, except that the serde-skipped
diagnostic field Issue.rule is always cleared by the trip: types embedding
Issues round-trip exactly on values whose rule fields are all absent. -/
theorem encode_decode_roundtrip :
    (∀ v : RiskLevel, decodeRiskLevel (encodeRiskLevel v) = some v) ∧
    (∀ v : RiskDomain, decodeRiskDomain (encodeRiskDomain v) = some v) ∧
    (∀ v : RiskType, decodeRiskType (encodeRiskType v) = some v) ∧
    (∀ v : PackageType, decodePackageType (encodePackageType v) = some v) ∧
    (∀ v : Status, decodeStatus (encodeStatus v) = some v) ∧
    (∀ r : RiskScores, decodeRiskScores (encodeRiskScores r) = some r) ∧
    (∀ v : ScoredVersion, decodeScoredVersion (encodeScoredVersion v) = some v) ∧
    (∀ p : ScoreDynamicsPoint, decodeScoreDynamicsPoint (encodeScoreDynamicsPoint p) = some p) ∧
    (∀ a : Author, decodeAuthor (encodeAuthor a) = some a) ∧
    (∀ d : DeveloperResponsiveness,
      decodeDeveloperResponsiveness (encodeDeveloperResponsiveness d) = some d) ∧
    (∀ d : PackageReleaseData, decodePackageReleaseData (encodePackageReleaseData d) = some d) ∧
    (∀ i : IssuesListItem, decodeIssuesListItem (encodeIssuesListItem i) = some i) ∧
    (∀ s : PackageSpecifier, decodePackageSpecifier (encodePackageSpecifier s) = some s) ∧
    (∀ d : PackageDescriptor, decodePackageDescriptor (encodePackageDescriptor d) = some d) ∧
    (∀ p : PackageStatus, decodePackageStatus (encodePackageStatus p) = some p) ∧
    (∀ p : PackageDescriptorAndLockfile,
      decodePackageDescriptorAndLockfile (encodePackageDescriptorAndLockfile p) = some p) ∧
    (∀ p : PackageSpecifierAndLockfile,
      decodePackageSpecifierAndLockfile (encodePackageSpecifierAndLockfile p) = some p) ∧
    (∀ p : PackageUrlAndLockfile,
      decodePackageUrlAndLockfile (encodePackageUrlAndLockfile p) = some p) ∧
    (∀ h : HeuristicResult, decodeHeuristicResult (encodeHeuristicResult h) = some h) ∧
    (∀ v : Vulnerability, decodeVulnerability (encodeVulnerability v) = some v) ∧
    (∀ r : SubmitPackageResponse,
      decodeSubmitPackageResponse (encodeSubmitPackageResponse r) = some r) ∧
    (∀ r : CancelJobResponse, decodeCancelJobResponse (encodeCancelJobResponse r) = some r) ∧
    (∀ r : SubmitPackageRequest,
      decodeSubmitPackageRequest (encodeSubmitPackageRequest r) = some r) ∧
    (∀ j : JobDescriptor, decodeJobDescriptor (encodeJobDescriptor j) = some j) ∧
    (∀ r : AllJobsStatusResponse,
      decodeAllJobsStatusResponse (encodeAllJobsStatusResponse r) = some r) ∧
    (∀ r : JobStatusResponse PackageStatus,
      decodeJobStatusResponse decodePackageStatus
        (encodeJobStatusResponse encodePackageStatus r) = some r) ∧
    (∀ i : Issue, decodeIssue (encodeIssue i) = some { i with rule := none }) ∧
    (∀ i : Issue, i.rule = none → decodeIssue (encodeIssue i) = some i) ∧
    (∀ i : IssueStatus, i.issue.rule = none →
      decodeIssueStatus (encodeIssueStatus i) = some i) ∧
    (∀ p : PackageStatusExtended, (∀ i ∈ p.issues, i.issue.rule = none) →
      decodePackageStatusExtended (encodePackageStatusExtended p) = some p) ∧
    (∀ r : JobStatusResponse PackageStatusExtended,
      (∀ p ∈ r.packages, ∀ i ∈ p.issues, i.issue.rule = none) →
      decodeJobStatusResponse decodePackageStatusExtended
        (encodeJobStatusResponse encodePackageStatusExtended r) = some r) ∧
    (∀ fuel p, packageHeight p ≤ fuel → packageRuleFree p = true →
      decodePackageFuel fuel (encodePackage p) = some p) ∧
    (∀ fuel r, submitResponseHeight r ≤ fuel → submitResponseRuleFree r = true →
      decodePackageSubmitResponse (decodePackageFuel fuel)
        (encodePackageSubmitResponse r) = some r) :=
  ⟨riskLevel_roundtrip,
   riskDomain_roundtrip,
   riskType_roundtrip,
   packageType_roundtrip,
   status_roundtrip,
   riskScores_roundtrip,
   scoredVersion_roundtrip,
   scoreDynamicsPoint_roundtrip,
   author_roundtrip,
   developerResponsiveness_roundtrip,
   packageReleaseData_roundtrip,
   issuesListItem_roundtrip,
   packageSpecifier_roundtrip,
   packageDescriptor_roundtrip,
   packageStatus_roundtrip,
   packageDescriptorAndLockfile_roundtrip,
   packageSpecifierAndLockfile_roundtrip,
   packageUrlAndLockfile_roundtrip,
   heuristicResult_roundtrip,
   vulnerability_roundtrip,
   submitPackageResponse_roundtrip,
   cancelJobResponse_roundtrip,
   submitPackageRequest_roundtrip,
   jobDescriptor_roundtrip,
   allJobsStatusResponse_roundtrip,
   fun r => jobStatusResponse_roundtrip r (fun x _ => packageStatus_roundtrip x),
   issue_roundtrip_clears_rule,
   fun _ h => issue_roundtrip_of_rule_none h,
   issueStatus_roundtrip,
   packageStatusExtended_roundtrip,
   fun r h => jobStatusResponse_roundtrip r (fun x hx => packageStatusExtended_roundtrip x (h x hx)),
   package_roundtrip_fuel,
   submitResponse_roundtrip_fuel⟩

/-- Witness for C2's amended theorem: a rule-free Issue, the default
Package and a payload-less submit response round-trip to themselves. -/
theorem encode_decode_roundtrip_witness :
    decodeIssue (encodeIssue issuePlain) = some issuePlain ∧
    decodePackageFuel 1 (encodePackage packageDefault) = some packageDefault ∧
    decodePackageSubmitResponse (decodePackageFuel 1)
      (encodePackageSubmitResponse .New) = some .New :=
  ⟨encode_decode_roundtrip.2.2.2.2.2.2.2.2.2.2.2.2.2.2.2.2.2.2.2.2.2.2.2.2.2.2.2.1 issuePlain rfl,
   encode_decode_roundtrip.2.2.2.2.2.2.2.2.2.2.2.2.2.2.2.2.2.2.2.2.2.2.2.2.2.2.2.2.2.2.2.1 1 packageDefault
     (by simp [packageDefault, packageHeight]) (by simp [packageDefault, packageRuleFree]),
   encode_decode_roundtrip.2.2.2.2.2.2.2.2.2.2.2.2.2.2.2.2.2.2.2.2.2.2.2.2.2.2.2.2.2.2.2.2 1 .New
     (by simp [submitResponseHeight]) (by simp [submitResponseRuleFree])⟩

/-- Claim C10: decoding the empty JSON object as a Package succeeds, every
field (identity fields included) falling back to its default: absent
options, empty strings and lists, zero counts and scores, complete =
false. -/
theorem empty_object_decodes_default_package :
    decodePackage (Json.obj []) = some packageDefault ∧
    packageDefault = Package.mk none "" "" "" "" none none [] none none [] none 0
      { total := 0, vulnerability := 0, malicious := 0, author := 0,
        engineering := 0, license := 0 }
      none [] [] [] none false none none none none := by
  constructor
  · show decodePackageFuel (jsonWeight (Json.obj [])) (Json.obj []) = some packageDefault
    rw [show jsonWeight (Json.obj []) = 1 by simp [jsonWeight, jsonWeightFields]]
    rfl
  · rfl

/-- Claim C1: whenever the Extended shape decodes, the untagged job-status
decode yields Extended (never Basic), and a Basic result occurs only when
the Extended decode fails. -/
theorem extended_shape_decodes_before_basic :
    (∀ j e, decodeJobStatusResponse decodePackageStatusExtended j = some e →
      decodeJobStatusResponseVariant j = some (.Extended e)) ∧
    (∀ j b, decodeJobStatusResponseVariant j = some (.Basic b) →
      decodeJobStatusResponse decodePackageStatusExtended j = none) := by
  constructor
  · intro j e h
    simp [decodeJobStatusResponseVariant, h]
  · intro j b h
    cases he : decodeJobStatusResponse decodePackageStatusExtended j with
    | none => rfl
    | some e => simp [decodeJobStatusResponseVariant, he] at h

/-- Witness for C1: a payload whose package carries both the minimal
PackageStatus fields and the extra PackageStatusExtended fields decodes to
Extended, although the same payload also satisfies the Basic shape. -/
theorem extended_shape_decodes_before_basic_witness :
    decodeJobStatusResponseVariant extendedJobPayload =
      some (.Extended expectedExtendedResponse) ∧
    decodeJobStatusResponse decodePackageStatus extendedJobPayload =
      some expectedBasicResponse :=
  ⟨extended_shape_decodes_before_basic.1 extendedJobPayload expectedExtendedResponse
    (by decide),
   by decide⟩

end PhylumTypes
